import Mathlib

/-!
Shallow embedding of the chart-item core of PySide6Plot
(`PySide6Plot/libs/plot_item.py`) and verification of its specification.

Numeric values (prices, volumes, coordinates, widths) are modelled as
rationals; colors are strings; a QPicture is a list of recorded draw
commands; a live QPainter is explicit state (current transform, pen,
brush) threaded through paint calls.
-/

namespace PySide6Plot

/-- Colors are opaque to the core; we model them as strings. -/
abbrev Color := String

/-- Style configuration: the fields of the style objects that
`plot_item.py` reads (`style.py` is an opaque parameter bag per the spec). -/
structure Style where
  positive_color : Color
  negative_color : Color
  volume_color : Color
  bar_width : ℚ
  shadow_width : ℚ
  line_color : Color
  line_width : ℚ
  marker_color : Color
  marker_size : ℚ
  deriving Repr, DecidableEq

/-- One OHLC observation: iteration of a `PricesDataFrame` yields tuples
`(t, open_price, close_price, high_price, low_price)`
(see the loop in `CandlestickPricesItem.__init__`). -/
structure OHLCRow where
  t : ℚ
  open_price : ℚ
  close_price : ℚ
  high_price : ℚ
  low_price : ℚ
  deriving Repr, DecidableEq

/-- Positional access into the `(t, open, close, high, low)` tuple, as used
by `CandlestickPricesItem.get_feature_value` via `data[index]`. -/
def OHLCRow.get (r : OHLCRow) : Nat → ℚ
  | 0 => r.t
  | 1 => r.open_price
  | 2 => r.close_price
  | 3 => r.high_price
  | 4 => r.low_price
  | _ => 0

/-- The OHLC series wrapped by a `CandlestickPricesItem`. -/
structure PricesDataFrame where
  rows : List OHLCRow
  deriving Repr, DecidableEq

/-- The volume series wrapped by a `CandlestickVolumeItem`: iteration
yields `(t, volume)` pairs. -/
structure VolumeDataFrame where
  rows : List (ℚ × ℚ)
  deriving Repr, DecidableEq

/-- A draw command recorded into a `QPicture` at item construction time. -/
inductive DrawCmd where
  | setBrush (color : Color)
  | setPen (color : Color) (width : Option ℚ)
  | drawRect (x y w h : ℚ)
  | drawPolyline (points : List (ℚ × ℚ))
  deriving Repr, DecidableEq

/-- Errors raised by the core (`ValueError` / `TypeError` in the source). -/
inductive PlotError where
  | valueError (msg : String)
  | typeError (msg : String)
  deriving Repr, DecidableEq

/-- The picture recorded by `CandlestickPricesItem.__init__`: for each row,
a body rectangle in the positive color when `close_price > open_price` and
in the negative color otherwise, followed by the shadow rectangle spanning
low to high, drawn with whatever brush and pen are current (those of the
body). -/
def candlestickPricesPicture (style : Style) (data : PricesDataFrame) : List DrawCmd :=
  let w := style.bar_width
  data.rows.flatMap fun r =>
    (if r.close_price > r.open_price then
      [DrawCmd.setBrush style.positive_color,
       DrawCmd.setPen style.positive_color none,
       DrawCmd.drawRect (r.t - w) r.open_price (w * 2) (r.close_price - r.open_price)]
    else
      [DrawCmd.setBrush style.negative_color,
       DrawCmd.setPen style.negative_color none,
       DrawCmd.drawRect (r.t - w) r.close_price (w * 2) (r.open_price - r.close_price)])
    ++ [DrawCmd.drawRect (r.t - style.shadow_width / 2) r.low_price
          style.shadow_width (r.high_price - r.low_price)]

/-- A `CandlestickPricesItem`: the wrapped series, the style, and the
picture cached at construction. -/
structure CandlestickPricesItem where
  data : PricesDataFrame
  style : Style
  picture : List DrawCmd
  deriving Repr, DecidableEq

/-- Construction of a `CandlestickPricesItem` (`__init__`). -/
def CandlestickPricesItem.build (data : PricesDataFrame) (style : Style) :
    CandlestickPricesItem :=
  { data := data, style := style, picture := candlestickPricesPicture style data }

/-- Feature extraction of `CandlestickPricesItem.get_feature_value`:
validates the key against the four OHLC names, then projects the column at
tuple position `index_of_key + 1`. -/
def CandlestickPricesItem.get_feature_value (item : CandlestickPricesItem)
    (key : String) : Except PlotError (List ℚ) :=
  let available_keys := ["open", "close", "high", "low"]
  if key ∉ available_keys then
    Except.error (PlotError.valueError "value_key must be one of open, close, high, low")
  else
    let index := List.indexOf key available_keys + 1
    Except.ok (item.data.rows.map fun d => d.get index)

/-- Call of `get_feature_value` with the key argument omitted: the Python
default is `key="close"`. -/
def CandlestickPricesItem.get_feature_value_default (item : CandlestickPricesItem) :
    Except PlotError (List ℚ) :=
  item.get_feature_value "close"

/-- Pen/brush state of the painter that records a `QPicture`. -/
structure PicPainterState where
  brush : Option Color
  pen : Option (Color × Option ℚ)
  deriving Repr, DecidableEq

/-- A rectangle as recorded by playback of a picture: the brush and pen
that were current when `drawRect` executed, plus its geometry. -/
structure PaintRecord where
  brush : Option Color
  pen : Option (Color × Option ℚ)
  x : ℚ
  y : ℚ
  w : ℚ
  h : ℚ
  deriving Repr, DecidableEq

/-- Playback of a recorded picture: threads the pen/brush state through the
commands and records every rectangle together with the colors it was drawn
with. Returns the records and the final state. -/
def runCmds (st : PicPainterState) : List DrawCmd → List PaintRecord × PicPainterState
  | [] => ([], st)
  | DrawCmd.setBrush c :: cs => runCmds { st with brush := some c } cs
  | DrawCmd.setPen c w :: cs => runCmds { st with pen := some (c, w) } cs
  | DrawCmd.drawRect x y w h :: cs =>
      let rest := runCmds st cs
      (⟨st.brush, st.pen, x, y, w, h⟩ :: rest.1, rest.2)
  | DrawCmd.drawPolyline _ :: cs => runCmds st cs

/-- The rectangles drawn by a `CandlestickPricesItem` picture, with the
colors in effect for each, starting from a fresh painter. -/
def paintedRects (style : Style) (data : PricesDataFrame) : List PaintRecord :=
  (runCmds ⟨none, none⟩ (candlestickPricesPicture style data)).1

/-- The picture recorded by `CandlestickVolumeItem.__init__`: a single
brush/pen in the volume color, then one bar per row from baseline 0 up to
`volume / 1e8`. -/
def volumePicture (style : Style) (data : VolumeDataFrame) : List DrawCmd :=
  let w := style.bar_width
  [DrawCmd.setBrush style.volume_color, DrawCmd.setPen style.volume_color none]
  ++ data.rows.map fun tv => DrawCmd.drawRect (tv.1 - w) 0 (w * 2) (tv.2 / 1e8)

/-- A `CandlestickVolumeItem`: the wrapped volume series, the style and the
cached picture. -/
structure CandlestickVolumeItem where
  data : VolumeDataFrame
  style : Style
  picture : List DrawCmd
  deriving Repr, DecidableEq

/-- Construction of a `CandlestickVolumeItem` (`__init__`). -/
def CandlestickVolumeItem.build (data : VolumeDataFrame) (style : Style) :
    CandlestickVolumeItem :=
  { data := data, style := style, picture := volumePicture style data }

/-- Modelled from the spec: `VolumeDataFrame.get_local_range` lives in
`data_handler.py`, which is not among the sources; per the spec it returns
the minimum and maximum of the magnitude column over the requested window
intersected with the dataset bounds, and must not fail on an empty window
(we anchor the degenerate result at 0). -/
def VolumeDataFrame.get_local_range (data : VolumeDataFrame) (x_start x_end : ℚ) :
    ℚ × ℚ :=
  let vals := (data.rows.filter fun tv => x_start ≤ tv.1 ∧ tv.1 ≤ x_end).map Prod.snd
  match vals with
  | [] => (0, 0)
  | v :: vs => (vs.foldl min v, vs.foldl max v)

/-- Query `CandlestickVolumeItem.get_local_plot_range`: asks the wrapped
series for its local range and returns `(0, max_v / 1e8)`. -/
def CandlestickVolumeItem.get_local_plot_range (item : CandlestickVolumeItem)
    (x_start x_end : ℚ) : ℚ × ℚ :=
  let mm := item.data.get_local_range x_start x_end
  (0, mm.2 / 1e8)

/-- Query `CandlestickVolumeItem.get_feature_value`: ignores its key and
returns the scaled magnitudes. -/
def CandlestickVolumeItem.get_feature_value (item : CandlestickVolumeItem)
    (_key : Option String) : List ℚ :=
  item.data.rows.map fun d => d.2 / 1e8

/-- A pandas-like frame as `LinePlotItem` uses it: a numeric index (the
plotting x-coordinates) and named numeric columns. -/
structure DataFrame where
  index : List ℚ
  cols : List (String × List ℚ)
  deriving Repr, DecidableEq

/-- Column names of the frame (`data_frame.columns`). -/
def DataFrame.columns (df : DataFrame) : List String :=
  df.cols.map Prod.fst

/-- Column lookup (`data_frame[key]`); only meaningful when the key is
among `columns`. -/
def DataFrame.col (df : DataFrame) (key : String) : List ℚ :=
  match df.cols.find? (fun kv => kv.1 == key) with
  | some kv => kv.2
  | none => []

/-- The generic series wrapped by a `LinePlotItem`: a frame plus the
requested column keys to plot. -/
structure ChildDataFrame where
  data_frame : DataFrame
  data_keys : List String
  deriving Repr, DecidableEq

/-- The one marker drawer the source defines (`draw_circle_marker`); both
recognized marker kinds map to it. -/
inductive MarkerKind where
  | circle_marker
  deriving Repr, DecidableEq

/-- The `MARKER_DRAWER` dictionary of `LinePlotItem`. -/
def MARKER_DRAWER : List (String × MarkerKind) :=
  [("circle", MarkerKind.circle_marker), ("o", MarkerKind.circle_marker)]

/-- Dictionary lookup `self.MARKER_DRAWER.get(marker, None)`. -/
def markerLookup (marker : Option String) : Option MarkerKind :=
  match marker with
  | none => none
  | some m => List.lookup m MARKER_DRAWER

/-- The polyline commands recorded by the loop in `LinePlotItem.__init__`:
for each requested key in order, raise `ValueError` if the key is not a
column of the frame, else record one polyline through the
`(index position, value)` points. -/
def linePolylines (df : DataFrame) (x : List ℚ) :
    List String → Except PlotError (List DrawCmd)
  | [] => Except.ok []
  | data_key :: rest =>
    if data_key ∉ df.columns then
      Except.error (PlotError.valueError "Data key not found in data frame.")
    else
      let y := df.col data_key
      (linePolylines df x rest).map fun cmds =>
        DrawCmd.drawPolyline ((List.range x.length).map fun i =>
          (x.getD i 0, y.getD i 0)) :: cmds

/-- The picture recorded by `LinePlotItem.__init__`: the line pen followed
by the polylines, or the error the constructor raises. -/
def linePicture (data : ChildDataFrame) (style : Style) :
    Except PlotError (List DrawCmd) :=
  (linePolylines data.data_frame data.data_frame.index data.data_keys).map
    fun cmds => DrawCmd.setPen style.line_color (some style.line_width) :: cmds

/-- A fully constructed `LinePlotItem`. -/
structure LinePlotItem where
  data : ChildDataFrame
  style : Style
  marker_drawer : Option MarkerKind
  picture : List DrawCmd
  deriving Repr, DecidableEq

/-- Construction of a `LinePlotItem` (`__init__`): resolves the marker
drawer from `MARKER_DRAWER`, then records the picture; an unknown column
key aborts construction and no item exists. -/
def LinePlotItem.build (data : ChildDataFrame) (style : Style)
    (marker : Option String) : Except PlotError LinePlotItem :=
  match linePicture data style with
  | Except.error e => Except.error e
  | Except.ok pic =>
      Except.ok { data := data, style := style,
                  marker_drawer := markerLookup marker, picture := pic }

/-- An affine 2D transform, as `QTransform`. -/
structure Transform where
  m11 : ℚ
  m12 : ℚ
  m21 : ℚ
  m22 : ℚ
  dx : ℚ
  dy : ℚ
  deriving Repr, DecidableEq

/-- Mapping a point through the transform (`QTransform.map`). -/
def Transform.map (tf : Transform) (pt : ℚ × ℚ) : ℚ × ℚ :=
  (tf.m11 * pt.1 + tf.m21 * pt.2 + tf.dx, tf.m22 * pt.2 + tf.m12 * pt.1 + tf.dy)

/-- The identity transform (`QPainter.resetTransform` installs it). -/
def Transform.identityTf : Transform :=
  ⟨1, 0, 0, 1, 0, 0⟩

/-- The state of the live painter handed to `paint`. -/
structure PainterState where
  transform : Transform
  pen : Option (Color × Option ℚ)
  brush : Option Color
  deriving Repr, DecidableEq

/-- An observable drawing effect of a `paint` call, each tagged with the
painter transform in effect when it was emitted. -/
inductive PaintEvent where
  | drawPictureEv (x y : ℚ) (pic : List DrawCmd) (tf : Transform)
  | drawEllipseEv (center : ℚ × ℚ) (rx ry : ℚ) (tf : Transform)
  deriving Repr, DecidableEq

/-- The module-level `draw_circle_marker`: one ellipse of radius
`marker_size` centered at `canvas_pt`, under the painter's current
transform. -/
def draw_circle_marker (st : PainterState) (canvas_pt : ℚ × ℚ)
    (marker_size : ℚ) : PaintEvent :=
  PaintEvent.drawEllipseEv canvas_pt marker_size marker_size st.transform

/-- Dispatch of `self.marker_drawer(p, canvas_pt, marker_size)`. -/
def MarkerKind.run : MarkerKind → PainterState → (ℚ × ℚ) → ℚ → PaintEvent
  | MarkerKind.circle_marker => draw_circle_marker

/-- Execution of `LinePlotItem.paint`: plays back the cached picture, and
when a marker drawer is set, saves the entry transform, switches pen and
brush to the marker color, resets the transform to identity, draws one
fixed-size marker at the entry-transform image of every plotted point, and
finally restores the entry transform. Returns the painter state at return
together with the emitted events. -/
def LinePlotItem.paint (item : LinePlotItem) (p : PainterState) :
    PainterState × List PaintEvent :=
  let pictureEv := PaintEvent.drawPictureEv 0 0 item.picture p.transform
  match item.marker_drawer with
  | none => (p, [pictureEv])
  | some drawer =>
      let transform := p.transform
      let p1 : PainterState :=
        { p with pen := some (item.style.marker_color, some item.style.line_width),
                 brush := some item.style.marker_color }
      let marker_size := item.style.marker_size / 2
      let x := item.data.data_frame.index
      let p2 : PainterState := { p1 with transform := Transform.identityTf }
      let markerEvs := item.data.data_keys.flatMap fun data_key =>
        if data_key ∉ item.data.data_frame.columns then []
        else
          let y := item.data.data_frame.col data_key
          (List.range x.length).map fun i =>
            let data_pt := (x.getD i 0, y.getD i 0)
            let canvas_pt := transform.map data_pt
            drawer.run p2 canvas_pt marker_size
      let p3 : PainterState := { p2 with transform := transform }
      (p3, pictureEv :: markerEvs)

/-- The runtime class of a series handed to the factory: a
`PricesDataFrame`, a `VolumeDataFrame`, or any other `ChildDataFrame`. -/
inductive SeriesFrame where
  | prices (d : PricesDataFrame)
  | volume (d : VolumeDataFrame)
  | generic (d : ChildDataFrame)
  deriving Repr, DecidableEq

/-- The items the factory can hand back (a line item never, but the type
admits it so that this is a statement and not a typing accident). -/
inductive PlotItemResult where
  | candlestickPrices (item : CandlestickPricesItem)
  | candlestickVolume (item : CandlestickVolumeItem)
  | line (item : LinePlotItem)
  deriving Repr, DecidableEq

/-- The factory `get_plot_item`: `isinstance` dispatch on the series class;
anything that is neither a prices nor a volume frame raises `TypeError`. -/
def get_plot_item (data_frame : SeriesFrame) (style : Style) :
    Except PlotError PlotItemResult :=
  match data_frame with
  | SeriesFrame.prices d =>
      Except.ok (PlotItemResult.candlestickPrices (CandlestickPricesItem.build d style))
  | SeriesFrame.volume d =>
      Except.ok (PlotItemResult.candlestickVolume (CandlestickVolumeItem.build d style))
  | SeriesFrame.generic _ =>
      Except.error (PlotError.typeError "data_frame must be PricesDataFrame")

/-- The two records (body then shadow) that playback of one row of the
candlestick picture produces; proved below to coincide with `runCmds` on
`candlestickPricesPicture`. -/
def ohlcRowRecords (style : Style) (r : OHLCRow) : List PaintRecord :=
  if r.close_price > r.open_price then
    [⟨some style.positive_color, some (style.positive_color, none),
      r.t - style.bar_width, r.open_price, style.bar_width * 2,
      r.close_price - r.open_price⟩,
     ⟨some style.positive_color, some (style.positive_color, none),
      r.t - style.shadow_width / 2, r.low_price, style.shadow_width,
      r.high_price - r.low_price⟩]
  else
    [⟨some style.negative_color, some (style.negative_color, none),
      r.t - style.bar_width, r.close_price, style.bar_width * 2,
      r.open_price - r.close_price⟩,
     ⟨some style.negative_color, some (style.negative_color, none),
      r.t - style.shadow_width / 2, r.low_price, style.shadow_width,
      r.high_price - r.low_price⟩]

/-- A concrete style used to instantiate theorems. -/
def sampleStyle : Style :=
  { positive_color := "red", negative_color := "green", volume_color := "gray",
    bar_width := 1/4, shadow_width := 1/10, line_color := "black",
    line_width := 1, marker_color := "cyan", marker_size := 6 }

/-- The tie row of the spec's example scenario: open = close = 1. -/
def sampleRowTie : OHLCRow :=
  { t := 2, open_price := 1, close_price := 1, high_price := 3/2, low_price := 9/10 }

/-- The OHLC series of the spec's example scenario. -/
def sampleData : PricesDataFrame :=
  ⟨[{ t := 0, open_price := 1, close_price := 2, high_price := 5/2, low_price := 4/5 },
    { t := 1, open_price := 2, close_price := 1, high_price := 11/5, low_price := 9/10 },
    sampleRowTie]⟩

/-- A variant of `sampleData` with the same opens and closes but different
highs and lows, for the two-run color property. -/
def sampleDataHL : PricesDataFrame :=
  ⟨[{ t := 0, open_price := 1, close_price := 2, high_price := 7, low_price := -3 },
    { t := 1, open_price := 2, close_price := 1, high_price := 4, low_price := 0 },
    { t := 2, open_price := 1, close_price := 1, high_price := 9, low_price := -1 }]⟩

/-- A concrete line-plot series: index 0, 1 with one column named a. -/
def lineSampleData : ChildDataFrame :=
  { data_frame := { index := [0, 1], cols := [("a", [10, 20])] }, data_keys := ["a"] }

/-- A concrete line-plot series requesting a column the frame lacks. -/
def lineBadData : ChildDataFrame :=
  { data_frame := { index := [0, 1], cols := [("a", [10, 20])] }, data_keys := ["a", "b"] }

/-- A concrete painter state with a nontrivial transform. -/
def sampleSt : PainterState :=
  { transform := ⟨2, 0, 0, 3, 5, 7⟩, pen := none, brush := none }

/-- The item that building from `lineSampleData` with marker circle
produces. -/
def lineSampleItem : LinePlotItem :=
  { data := lineSampleData, style := sampleStyle,
    marker_drawer := some MarkerKind.circle_marker,
    picture := [DrawCmd.setPen "black" (some 1),
      DrawCmd.drawPolyline [(0, 10), (1, 20)]] }

lemma runCmds_append (l1 l2 : List DrawCmd) (st : PicPainterState) :
    runCmds st (l1 ++ l2) =
      ((runCmds st l1).1 ++ (runCmds (runCmds st l1).2 l2).1,
       (runCmds (runCmds st l1).2 l2).2) := by
  induction l1 generalizing st with
  | nil => simp [runCmds]
  | cons c cs ih => cases c <;> simp [runCmds, ih]

/-- Playback of the candlestick-prices picture yields, row by row, exactly
the body and shadow records of `ohlcRowRecords`, from any starting painter
state. -/
lemma runCmds_prices (style : Style) (rows : List OHLCRow) (st : PicPainterState) :
    (runCmds st (candlestickPricesPicture style ⟨rows⟩)).1 =
      rows.flatMap (ohlcRowRecords style) := by
  induction rows generalizing st with
  | nil => simp [candlestickPricesPicture, runCmds]
  | cons r rs ih =>
    by_cases h : r.close_price > r.open_price <;>
      simp [candlestickPricesPicture, ohlcRowRecords, h, runCmds, runCmds_append] at ih ⊢ <;>
      exact ih _

lemma paintedRects_eq (style : Style) (data : PricesDataFrame) :
    paintedRects style data = data.rows.flatMap (ohlcRowRecords style) := by
  obtain ⟨rows⟩ := data
  exact runCmds_prices style rows _

lemma flatMap_pair_getElem {α β : Type} (f : α → List β)
    (hf : ∀ a, (f a).length = 2) (l : List α) (i j : Nat) (a : α)
    (h : l[i]? = some a) (hj : j < 2) :
    (l.flatMap f)[2 * i + j]? = (f a)[j]? := by
  induction l generalizing i with
  | nil => simp at h
  | cons b bs ih =>
    cases i with
    | zero =>
      simp only [List.getElem?_cons_zero, Option.some.injEq] at h
      subst h
      have hidx : 2 * 0 + j = j := by omega
      rw [hidx, List.flatMap_cons, List.getElem?_append, if_pos (by rw [hf]; exact hj)]
    | succ i' =>
      simp only [List.getElem?_cons_succ] at h
      rw [List.flatMap_cons, List.getElem?_append, if_neg (by rw [hf]; omega), hf]
      have hidx : 2 * (i' + 1) + j - 2 = 2 * i' + j := by omega
      rw [hidx]
      exact ih i' h

lemma ohlcRowRecords_length (style : Style) (r : OHLCRow) :
    (ohlcRowRecords style r).length = 2 := by
  by_cases h : r.close_price > r.open_price <;> simp [ohlcRowRecords, h]

lemma ohlcRowRecords_brush_congr (style : Style) (r1 r2 : OHLCRow)
    (ho : r1.open_price = r2.open_price) (hc : r1.close_price = r2.close_price) :
    (ohlcRowRecords style r1).map PaintRecord.brush =
      (ohlcRowRecords style r2).map PaintRecord.brush := by
  by_cases h : r2.close_price > r2.open_price <;>
    simp [ohlcRowRecords, ho, hc, h]

/-- C1: for every OHLC series and every ordinal in it, the body rectangle
recorded at construction by `CandlestickPricesItem` (record `2*i` of the
played-back picture) carries the style's positive color when
`close > open` and the negative color otherwise, in brush and pen alike;
in particular a tie `close = open` is drawn in the negative color. -/
theorem candlestick_body_color (style : Style) (data : PricesDataFrame)
    (i : Nat) (r : OHLCRow) (h : data.rows[i]? = some r) :
    ((paintedRects style data)[2 * i]?).map PaintRecord.brush =
      some (some (if r.close_price > r.open_price then style.positive_color
        else style.negative_color)) ∧
    ((paintedRects style data)[2 * i]?).map PaintRecord.pen =
      some (some ((if r.close_price > r.open_price then style.positive_color
        else style.negative_color), none)) ∧
    (r.close_price = r.open_price →
      ((paintedRects style data)[2 * i]?).map PaintRecord.brush =
        some (some style.negative_color)) := by
  have hrec : (paintedRects style data)[2 * i]? = (ohlcRowRecords style r)[0]? := by
    rw [paintedRects_eq]
    simpa using flatMap_pair_getElem (ohlcRowRecords style)
      (ohlcRowRecords_length style) data.rows i 0 r h (by omega)
  rw [hrec]
  by_cases hc : r.close_price > r.open_price
  · refine ⟨by simp [ohlcRowRecords, hc], by simp [ohlcRowRecords, hc], ?_⟩
    intro heq
    exact absurd hc (by rw [heq]; exact lt_irrefl _)
  · exact ⟨by simp [ohlcRowRecords, hc], by simp [ohlcRowRecords, hc],
      fun _ => by simp [ohlcRowRecords, hc]⟩

theorem candlestick_body_color_witness :
    ((paintedRects sampleStyle sampleData)[2 * 2]?).map PaintRecord.brush =
      some (some "green") := by
  have h := candlestick_body_color sampleStyle sampleData 2 sampleRowTie rfl
  simpa [sampleStyle] using h.2.2 rfl

/-- C7: for every OHLC series and every ordinal, the shadow rectangle
(record `2*i + 1` of the played-back picture) has x-origin
`t - shadow_width / 2` and width `shadow_width` (horizontally centered on
the ordinal), y-origin `low` and height `high - low` (spanning low to
high), and its brush and pen agree with the body's brush at that ordinal,
regardless of bar direction. -/
theorem candlestick_shadow_spec (style : Style) (data : PricesDataFrame)
    (i : Nat) (r : OHLCRow) (h : data.rows[i]? = some r) :
    ∃ c, (paintedRects style data)[2 * i + 1]? =
        some ⟨some c, some (c, none), r.t - style.shadow_width / 2, r.low_price,
          style.shadow_width, r.high_price - r.low_price⟩ ∧
      ((paintedRects style data)[2 * i]?).map PaintRecord.brush = some (some c) := by
  have h1 : (paintedRects style data)[2 * i + 1]? = (ohlcRowRecords style r)[1]? := by
    rw [paintedRects_eq]
    exact flatMap_pair_getElem (ohlcRowRecords style)
      (ohlcRowRecords_length style) data.rows i 1 r h (by omega)
  have h0 : (paintedRects style data)[2 * i]? = (ohlcRowRecords style r)[0]? := by
    rw [paintedRects_eq]
    simpa using flatMap_pair_getElem (ohlcRowRecords style)
      (ohlcRowRecords_length style) data.rows i 0 r h (by omega)
  rw [h0, h1]
  by_cases hc : r.close_price > r.open_price
  · exact ⟨style.positive_color, by simp [ohlcRowRecords, hc],
      by simp [ohlcRowRecords, hc]⟩
  · exact ⟨style.negative_color, by simp [ohlcRowRecords, hc],
      by simp [ohlcRowRecords, hc]⟩

theorem candlestick_shadow_witness :
    ∃ c, (paintedRects sampleStyle sampleData)[2 * 1 + 1]? =
        some ⟨some c, some (c, none),
          (1 : ℚ) - sampleStyle.shadow_width / 2, 9/10, sampleStyle.shadow_width,
          11/5 - 9/10⟩ ∧
      ((paintedRects sampleStyle sampleData)[2 * 1]?).map PaintRecord.brush =
        some (some c) :=
  candlestick_shadow_spec sampleStyle sampleData 1
    { t := 1, open_price := 2, close_price := 1, high_price := 11/5, low_price := 9/10 }
    rfl

/-- C8: two OHLC series that agree in open and close at every ordinal
(while their highs and lows may differ arbitrarily) produce pictures whose
played-back records carry identical brush colors throughout: the chosen
color depends only on open and close. -/
theorem color_independent_of_high_low (style : Style) (d1 d2 : PricesDataFrame)
    (h : List.Forall₂ (fun r1 r2 => r1.open_price = r2.open_price ∧
      r1.close_price = r2.close_price) d1.rows d2.rows) :
    (paintedRects style d1).map PaintRecord.brush =
      (paintedRects style d2).map PaintRecord.brush := by
  rw [paintedRects_eq, paintedRects_eq]
  obtain ⟨l1⟩ := d1
  obtain ⟨l2⟩ := d2
  dsimp only at h ⊢
  induction h with
  | nil => rfl
  | cons hab htail ih =>
    simp only [List.flatMap_cons, List.map_append]
    rw [ih, ohlcRowRecords_brush_congr style _ _ hab.1 hab.2]

theorem color_independent_witness :
    (paintedRects sampleStyle sampleData).map PaintRecord.brush =
      (paintedRects sampleStyle sampleDataHL).map PaintRecord.brush :=
  color_independent_of_high_low sampleStyle sampleData sampleDataHL
    (by simp [sampleData, sampleDataHL, sampleRowTie])

/-- C2: for every volume series and every window, the local plot range of
a `CandlestickVolumeItem` has first component exactly 0 whatever the
underlying data (in particular whatever the series' true minimum), and
second component the series' local maximum over the window divided by the
fixed scale 1e8. -/
theorem volume_local_plot_range (data : VolumeDataFrame) (style : Style)
    (x_start x_end : ℚ) :
    ((CandlestickVolumeItem.build data style).get_local_plot_range x_start x_end).1
        = 0 ∧
    ((CandlestickVolumeItem.build data style).get_local_plot_range x_start x_end).2
        = (data.get_local_range x_start x_end).2 / 1e8 :=
  ⟨rfl, rfl⟩

/-- C4: `get_feature_value` on a `CandlestickPricesItem` raises ValueError
(the InvalidFeatureKey condition) exactly when the key is none of open,
close, high, low; with the key argument omitted it defaults to close and
succeeds. -/
theorem feature_key_validation (item : CandlestickPricesItem) (key : String) :
    (item.get_feature_value key =
        Except.error (PlotError.valueError
          "value_key must be one of open, close, high, low") ↔
      key ∉ ["open", "close", "high", "low"]) ∧
    ∃ vs, CandlestickPricesItem.get_feature_value_default item = Except.ok vs := by
  constructor
  · by_cases h : key ∈ ["open", "close", "high", "low"] <;>
      simp [CandlestickPricesItem.get_feature_value, h]
  · exact ⟨item.data.rows.map (fun d => d.get 2), by rfl⟩

theorem feature_key_validation_witness :
    (CandlestickPricesItem.build sampleData sampleStyle).get_feature_value "volume" =
      Except.error (PlotError.valueError
        "value_key must be one of open, close, high, low") :=
  ((feature_key_validation (CandlestickPricesItem.build sampleData sampleStyle)
    "volume").1).mpr (by decide)

/-- C5: `get_feature_value` with key close on a `CandlestickPricesItem`
succeeds with a sequence of the same length as the wrapped series whose
i-th element is the i-th close value of the source series. -/
theorem feature_close_roundtrip (data : PricesDataFrame) (style : Style) :
    ∃ vs, (CandlestickPricesItem.build data style).get_feature_value "close" =
        Except.ok vs ∧
      vs.length = data.rows.length ∧
      ∀ i : Nat, vs[i]? = (data.rows[i]?).map OHLCRow.close_price := by
  have hok : (CandlestickPricesItem.build data style).get_feature_value "close" =
      Except.ok (data.rows.map (fun d => d.get 2)) := by rfl
  refine ⟨data.rows.map (fun d => d.get 2), hok, by simp, fun i => ?_⟩
  rw [List.getElem?_map]
  rfl

/-- C6: the factory `get_plot_item` returns a `CandlestickPricesItem`
built from the series for a prices frame, a `CandlestickVolumeItem` for a
volume frame, raises TypeError (the UnsupportedSeriesShape condition) for
any other frame, and never returns a line item. -/
theorem get_plot_item_spec (df : SeriesFrame) (style : Style) :
    (∀ d, df = SeriesFrame.prices d →
      get_plot_item df style =
        Except.ok (PlotItemResult.candlestickPrices
          (CandlestickPricesItem.build d style))) ∧
    (∀ d, df = SeriesFrame.volume d →
      get_plot_item df style =
        Except.ok (PlotItemResult.candlestickVolume
          (CandlestickVolumeItem.build d style))) ∧
    (∀ d, df = SeriesFrame.generic d →
      get_plot_item df style =
        Except.error (PlotError.typeError "data_frame must be PricesDataFrame")) ∧
    (∀ item, get_plot_item df style = Except.ok item →
      ∀ l, item ≠ PlotItemResult.line l) := by
  cases df <;> simp [get_plot_item]

theorem get_plot_item_witness :
    get_plot_item (SeriesFrame.generic lineSampleData) sampleStyle =
      Except.error (PlotError.typeError "data_frame must be PricesDataFrame") :=
  (get_plot_item_spec (SeriesFrame.generic lineSampleData) sampleStyle).2.2.1
    lineSampleData rfl

/-- The polyline loop of the line-item constructor either raises the
unknown-column error (and then some requested key is missing) or succeeds
(and then every requested key is a column). -/
lemma linePolylines_spec (df : DataFrame) (x : List ℚ) (keys : List String) :
    (linePolylines df x keys =
        Except.error (PlotError.valueError "Data key not found in data frame.") ∧
      ∃ k ∈ keys, k ∉ df.columns) ∨
    ((∃ cmds, linePolylines df x keys = Except.ok cmds) ∧
      ∀ k ∈ keys, k ∈ df.columns) := by
  induction keys with
  | nil => exact Or.inr ⟨⟨[], rfl⟩, by simp⟩
  | cons k ks ih =>
    by_cases hk : k ∈ df.columns
    · rcases ih with ⟨herr, k', hk', hkn⟩ | ⟨⟨cmds, hok⟩, hall⟩
      · refine Or.inl ⟨?_, k', List.mem_cons_of_mem _ hk', hkn⟩
        simp [linePolylines, hk, herr, Except.map]
      · refine Or.inr ⟨⟨DrawCmd.drawPolyline ((List.range x.length).map fun i =>
            (x.getD i 0, (df.col k).getD i 0)) :: cmds, ?_⟩, ?_⟩
        · simp [linePolylines, hk, hok, Except.map]
        · intro k2 hk2
          rcases List.mem_cons.mp hk2 with h | h
          · exact h ▸ hk
          · exact hall k2 h
    · exact Or.inl ⟨by simp [linePolylines, hk], k, List.mem_cons_self k ks, hk⟩

/-- C3: constructing a `LinePlotItem` succeeds exactly when every requested
column key is present in the frame, and raises the unknown-column
ValueError exactly when at least one requested key is absent; in the
failure case no item value exists. -/
theorem line_construction_key_check (data : ChildDataFrame) (style : Style)
    (marker : Option String) :
    ((∃ item, LinePlotItem.build data style marker = Except.ok item) ↔
      ∀ k ∈ data.data_keys, k ∈ data.data_frame.columns) ∧
    ((LinePlotItem.build data style marker =
        Except.error (PlotError.valueError "Data key not found in data frame.")) ↔
      ∃ k ∈ data.data_keys, k ∉ data.data_frame.columns) := by
  rcases linePolylines_spec data.data_frame data.data_frame.index data.data_keys with
    ⟨herr, k, hk, hkn⟩ | ⟨⟨cmds, hok⟩, hall⟩
  · have hbuild : LinePlotItem.build data style marker =
        Except.error (PlotError.valueError "Data key not found in data frame.") := by
      simp [LinePlotItem.build, linePicture, herr, Except.map]
    constructor
    · constructor
      · rintro ⟨item, hitem⟩
        rw [hbuild] at hitem
        cases hitem
      · intro hall
        exact absurd (hall k hk) hkn
    · exact ⟨fun _ => ⟨k, hk, hkn⟩, fun _ => hbuild⟩
  · have hbuild : LinePlotItem.build data style marker =
        Except.ok
          { data := data
            style := style
            marker_drawer := markerLookup marker
            picture :=
              DrawCmd.setPen style.line_color (some style.line_width) :: cmds } := by
      simp [LinePlotItem.build, linePicture, hok, Except.map]
    constructor
    · exact ⟨fun _ => hall, fun _ => ⟨_, hbuild⟩⟩
    · constructor
      · intro herr
        rw [hbuild] at herr
        cases herr
      · rintro ⟨k, hk, hkn⟩
        exact absurd (hall k hk) hkn

theorem line_construction_witness :
    LinePlotItem.build lineBadData sampleStyle none =
      Except.error (PlotError.valueError "Data key not found in data frame.") :=
  (line_construction_key_check lineBadData sampleStyle none).2.mpr
    ⟨"b", by decide, by decide⟩

lemma markerLookup_recognized (m : String) (hm : m ∈ ["circle", "o"]) :
    markerLookup (some m) = some MarkerKind.circle_marker := by
  fin_cases hm <;> rfl

lemma build_ok_fields (data : ChildDataFrame) (style : Style)
    (marker : Option String) (item : LinePlotItem)
    (h : LinePlotItem.build data style marker = Except.ok item) :
    item.data = data ∧ item.style = style ∧
      item.marker_drawer = markerLookup marker := by
  cases hlp : linePicture data style with
  | error e => simp [LinePlotItem.build, hlp] at h
  | ok pic =>
    simp only [LinePlotItem.build, hlp, Except.ok.injEq] at h
    rw [← h]
    exact ⟨rfl, rfl, rfl⟩

/-- C9: when a `LinePlotItem` is built with a recognized marker kind, every
`paint` call leaves the painter transform at return equal to its value on
entry, first plays back the cached picture under the entry transform, and
draws every marker as a fixed-size ellipse in the identity (device)
frame, centered at the image of a plotted data point under the transform
that was current on entry to `paint`. -/
theorem marker_paint_transform (data : ChildDataFrame) (style : Style)
    (m : String) (item : LinePlotItem) (st : PainterState)
    (hm : m ∈ ["circle", "o"])
    (hbuild : LinePlotItem.build data style (some m) = Except.ok item) :
    (item.paint st).1.transform = st.transform ∧
    (item.paint st).2.head? =
      some (PaintEvent.drawPictureEv 0 0 item.picture st.transform) ∧
    (∀ c rx ry tf, PaintEvent.drawEllipseEv c rx ry tf ∈ (item.paint st).2 →
      tf = Transform.identityTf ∧ rx = style.marker_size / 2 ∧
      ry = style.marker_size / 2 ∧
      ∃ k ∈ data.data_keys, ∃ i < data.data_frame.index.length,
        c = st.transform.map (data.data_frame.index.getD i 0,
          (data.data_frame.col k).getD i 0)) := by
  obtain ⟨hd, hs, hmk⟩ := build_ok_fields data style (some m) item hbuild
  rw [markerLookup_recognized m hm] at hmk
  refine ⟨by simp [LinePlotItem.paint, hmk], by simp [LinePlotItem.paint, hmk], ?_⟩
  intro c rx ry tf hmem
  simp only [LinePlotItem.paint, hmk, hd, hs] at hmem
  rcases List.mem_cons.mp hmem with h | h
  · exact absurd h (by simp)
  · rw [List.mem_flatMap] at h
    obtain ⟨data_key, hkmem, hev⟩ := h
    by_cases hcol : data_key ∈ data.data_frame.columns
    · rw [if_neg (not_not_intro hcol)] at hev
      rw [List.mem_map] at hev
      obtain ⟨i, hi, hev⟩ := hev
      rw [List.mem_range] at hi
      simp only [MarkerKind.run, draw_circle_marker] at hev
      obtain ⟨h1, h2, h3, h4⟩ := PaintEvent.drawEllipseEv.inj hev
      exact ⟨h4.symm, h2.symm, h3.symm, data_key, hkmem, i, hi, h1.symm⟩
    · rw [if_pos hcol] at hev
      cases hev

theorem marker_paint_witness :
    (lineSampleItem.paint sampleSt).1.transform = sampleSt.transform ∧
    (lineSampleItem.paint sampleSt).2.head? =
      some (PaintEvent.drawPictureEv 0 0 lineSampleItem.picture sampleSt.transform) ∧
    (∀ c rx ry tf,
      PaintEvent.drawEllipseEv c rx ry tf ∈ (lineSampleItem.paint sampleSt).2 →
      tf = Transform.identityTf ∧ rx = sampleStyle.marker_size / 2 ∧
      ry = sampleStyle.marker_size / 2 ∧
      ∃ k ∈ lineSampleData.data_keys,
        ∃ i < lineSampleData.data_frame.index.length,
          c = sampleSt.transform.map (lineSampleData.data_frame.index.getD i 0,
            (lineSampleData.data_frame.col k).getD i 0)) :=
  marker_paint_transform lineSampleData sampleStyle "circle" lineSampleItem
    sampleSt (by decide) (by rfl)

/-- C10: building a `LinePlotItem` with a marker argument outside the
recognized kinds (no marker at all, or any unrecognized string) succeeds
whenever the requested columns exist, resolves no marker drawer, and every
`paint` call then emits exactly the cached picture playback and leaves the
painter state untouched. -/
theorem unrecognized_marker_no_decoration (data : ChildDataFrame)
    (style : Style) (marker : Option String)
    (hm : ∀ m, marker = some m → m ∉ ["circle", "o"])
    (hkeys : ∀ k ∈ data.data_keys, k ∈ data.data_frame.columns) :
    ∃ item, LinePlotItem.build data style marker = Except.ok item ∧
      item.marker_drawer = none ∧
      ∀ st, item.paint st =
        (st, [PaintEvent.drawPictureEv 0 0 item.picture st.transform]) := by
  have hlk : markerLookup marker = none := by
    cases marker with
    | none => rfl
    | some m =>
      have h := hm m rfl
      rw [List.mem_cons, List.mem_cons] at h
      push_neg at h
      have hb1 : (m == "circle") = false := beq_eq_false_iff_ne.mpr h.1
      have hb2 : (m == "o") = false := beq_eq_false_iff_ne.mpr h.2.1
      simp [markerLookup, List.lookup, MARKER_DRAWER, hb1, hb2]
  rcases linePolylines_spec data.data_frame data.data_frame.index data.data_keys with
    ⟨herr, k, hk, hkn⟩ | ⟨⟨cmds, hok⟩, hall⟩
  · exact absurd (hkeys k hk) hkn
  · refine ⟨{ data := data
              style := style
              marker_drawer := none
              picture :=
                DrawCmd.setPen style.line_color (some style.line_width) :: cmds },
      ?_, rfl, fun st => rfl⟩
    simp [LinePlotItem.build, linePicture, hok, Except.map, hlk]

/-- An unrecognized marker does not by itself make construction succeed:
a series requesting the absent column b still fails to build even though
the marker x is outside the recognized kinds. -/
theorem unrecognized_marker_counterexample :
    LinePlotItem.build lineBadData sampleStyle (some "x") =
      Except.error (PlotError.valueError "Data key not found in data frame.") := by
  rfl

theorem unrecognized_marker_witness :
    ∃ item, LinePlotItem.build lineSampleData sampleStyle (some "x") =
        Except.ok item ∧
      item.marker_drawer = none ∧
      ∀ st, item.paint st =
        (st, [PaintEvent.drawPictureEv 0 0 item.picture st.transform]) :=
  unrecognized_marker_no_decoration lineSampleData sampleStyle (some "x")
    (fun m hm => by injection hm with h; exact h ▸ (by decide)) (by decide)

end PySide6Plot
